import Mathlib

/-!
Verification development for the contract-generation route of the
influencerFlow repository (`src/frontend/src/app/api/contract/generate/route.ts`).

The route is a stateless request handler: it validates a `deal_terms` payload
(required fields, date parsing and ordering, deliverable checks), and on success
composes a fixed-structure contract document string.  We embed the handler
shallowly: JavaScript strings become `String`, JS numbers become `ℚ` (or `ℤ`
for the integer-valued `quantity`), and the two ambient effects (`Date.now()` /
`new Date()` and `Math.random()`) become explicit parameters.  JS `Date` parsing
is modelled for the ISO `YYYY-MM-DD` date-only strings that the upstream form
produces; all other strings are modelled as parsing to an invalid date (NaN).
-/

namespace InfluencerFlow

/-! ### Dates

`new Date(s)` / `getTime()` modelled on ISO `YYYY-MM-DD` strings.  A parsed
date is a calendar triple; `code` is a monotone injection into `ℕ` standing in
for the millisecond timestamp (only equality and order of timestamps are ever
used by the route). -/

structure CivilDate where
  year : ℕ
  month : ℕ
  day : ℕ
deriving DecidableEq

/-- Stand-in for `Date.prototype.getTime`: injective and order-preserving on
calendar dates (month ≤ 12 < 16 and day ≤ 31 < 32, so lexicographic order on
(year, month, day) agrees with numeric order of the code). -/
def CivilDate.code (d : CivilDate) : ℕ :=
  d.year * 512 + d.month * 32 + d.day

def isLeapYear (y : ℕ) : Bool :=
  (y % 4 == 0 && y % 100 != 0) || y % 400 == 0

def daysInMonth (y m : ℕ) : ℕ :=
  if m = 2 then (if isLeapYear y then 29 else 28)
  else if m = 4 ∨ m = 6 ∨ m = 9 ∨ m = 11 then 30
  else 31

/-- Split a character list at `-` separators (used to parse `YYYY-MM-DD`). -/
def splitDashAux : List Char → List Char → List (List Char)
  | [], acc => [acc.reverse]
  | c :: cs, acc =>
    if c = '-' then acc.reverse :: splitDashAux cs []
    else splitDashAux cs (c :: acc)

def digitsToNat (l : List Char) : ℕ :=
  l.foldl (fun acc c => acc * 10 + (c.toNat - 48)) 0

/-- Models `new Date(dateString)` followed by the `isNaN(getTime())` test of
the route: `some` is a valid date, `none` is an invalid date (NaN timestamp).
Restricted to the ISO `YYYY-MM-DD` date-only form produced by the upstream
date inputs; every other string is modelled as invalid. -/
def parseIsoDate (s : String) : Option CivilDate :=
  match splitDashAux s.data [] with
  | [ys, ms, ds] =>
    if ys.length = 4 ∧ ms.length = 2 ∧ ds.length = 2 ∧
        ys.all Char.isDigit ∧ ms.all Char.isDigit ∧ ds.all Char.isDigit then
      let y := digitsToNat ys
      let m := digitsToNat ms
      let d := digitsToNat ds
      if 1 ≤ m ∧ m ≤ 12 ∧ 1 ≤ d ∧ d ≤ daysInMonth y m then
        some ⟨y, m, d⟩
      else none
    else none
  | _ => none

def monthName (m : ℕ) : String :=
  if m = 1 then "January" else if m = 2 then "February"
  else if m = 3 then "March" else if m = 4 then "April"
  else if m = 5 then "May" else if m = 6 then "June"
  else if m = 7 then "July" else if m = 8 then "August"
  else if m = 9 then "September" else if m = 10 then "October"
  else if m = 11 then "November" else "December"

/-- The route's `formatDate`: `toLocaleDateString("en-US", { year:
"numeric", month: "long", day: "numeric" })`, e.g. `"August 1, 2024"`.
An unparseable string renders as `"Invalid Date"`, as in JS. -/
def formatDate (dateString : String) : String :=
  match parseIsoDate dateString with
  | some d => monthName d.month ++ " " ++ toString d.day ++ ", " ++ toString d.year
  | none => "Invalid Date"

/-! ### Number formatting

`Number.prototype.toLocaleString()` in the en-US default locale: thousands
grouping with `,`, at most 3 fraction digits. -/

/-- Insert a comma before the reversed digit at every index that is a positive
multiple of 3 (so the un-reversed string is grouped in threes from the right). -/
def commaRev : List Char → ℕ → List Char
  | [], _ => []
  | c :: cs, i =>
    if i % 3 = 0 ∧ i ≠ 0 then ',' :: c :: commaRev cs (i + 1)
    else c :: commaRev cs (i + 1)

def groupThousands (n : ℕ) : String :=
  String.mk ((commaRev (toString n).data.reverse 0).reverse)

def pad3 (n : ℕ) : List Char :=
  if n < 10 then ['0', '0'] ++ (toString n).data
  else if n < 100 then ['0'] ++ (toString n).data
  else (toString n).data

def dropTrailingZeros (l : List Char) : List Char :=
  (l.reverse.dropWhile (fun c => c = '0')).reverse

/-- Models `x.toLocaleString()` (en-US default): sign, integer part grouped in
thousands, then at most 3 fraction digits (trailing zeros dropped, halves
rounded up).  `|q| * 1000` rounded to the nearest natural is
`⌊(2·|num|·1000 + den) / (2·den)⌋`; working on the `num`/`den` projections
keeps the definition reducible in the kernel. -/
def jsToLocaleString (q : ℚ) : String :=
  let neg : Bool := decide (q.num < 0)
  let mm : ℕ := (2 * (q.num.natAbs * 1000) + q.den) / (2 * q.den)
  let ip : ℕ := mm / 1000
  let fp : ℕ := mm % 1000
  let fracStr : String :=
    if fp = 0 then "" else "." ++ String.mk (dropTrailingZeros (pad3 fp))
  (if neg then "-" else "") ++ groupThousands ip ++ fracStr

/-! ### Data model (the TypeScript interfaces of the route) -/

structure Deliverable where
  type : String
  description : String
  quantity : ℤ
  due_date : String
deriving DecidableEq

structure DealTerms where
  brand_name : String
  influencer_name : String
  platform : String
  campaign_name : String
  total_fee : ℚ
  deliverables : List Deliverable
  start_date : String
  end_date : String
deriving DecidableEq

/-- The ambient-effect readings consumed by one call of
`generateContractText`: `Date.now()` for the embedded contract ID, the
`Math.random().toString(36).substring(2, 8)` fragment, and the
`new Date().toISOString()` string of the footer. -/
structure RandEnv where
  nowMs : ℕ
  rand : String
  nowIso : String
deriving DecidableEq

/-! ### Contract ID generator -/

def base36digit (n : ℕ) : Char :=
  if n < 10 then Char.ofNat (48 + n) else Char.ofNat (87 + n)

/-- Base-36 digits of `n`, least significant first; structural in a fuel
argument so that it reduces in the kernel. -/
def toBase36Core : ℕ → ℕ → List Char
  | 0, _ => []
  | fuel + 1, n => if n = 0 then [] else base36digit (n % 36) :: toBase36Core fuel (n / 36)

/-- Base-36 rendering `n.toString(36)` of a natural number, as JS renders `Date.now()`. -/
def toBase36 (n : ℕ) : String :=
  if n = 0 then "0" else String.mk ((toBase36Core (n + 1) n).reverse)

def jsToUpperCase (s : String) : String :=
  String.mk (s.data.map Char.toUpper)

/-- The route's `generateContractId`:
`` `CONTRACT-${Date.now().toString(36)}-${randomStr}`.toUpperCase() ``,
with the two ambient readings (`Date.now()` and the random fragment) passed
explicitly. -/
def generateContractId (nowMs : ℕ) (randStr : String) : String :=
  jsToUpperCase ("CONTRACT-" ++ toBase36 nowMs ++ "-" ++ randStr)

/-! ### Contract text composer

`generateContractText` builds one template string.  We reproduce it as a
concatenation of named sections (preamble / deliverables list / compensation /
static tail / footer); the concatenation of the pieces is the template string
of the source, character for character. -/

/-- One entry of `deliverables.map((deliverable, index) => ...)`:
`index` is the 0-based position, rendered as `index + 1`. -/
def renderDeliverable (index : ℕ) (d : Deliverable) : String :=
  "\n" ++ toString (index + 1) ++ ". " ++ d.type ++ " (Quantity: " ++ toString d.quantity
    ++ ")\n   Description: " ++ d.description
    ++ "\n   Due Date: " ++ formatDate d.due_date

def renderDeliverables : ℕ → List Deliverable → List String
  | _, [] => []
  | i, d :: ds => renderDeliverable i d :: renderDeliverables (i + 1) ds

/-- JS `Array.prototype.join(sep)`. -/
def joinStrings (sep : String) : List String → String
  | [] => ""
  | [s] => s
  | s :: rest => s ++ sep ++ joinStrings sep rest

/-- The `deliverablesList` local of `generateContractText`:
`deliverables.map(...).join("\n")`. -/
def deliverablesList (ds : List Deliverable) : String :=
  joinStrings "\n" (renderDeliverables 0 ds)

/-- Template text from the opening line through
`"...provide the following deliverables:\n"` (everything before the
interpolated `deliverablesList`). -/
def preamble (d : DealTerms) : String :=
  "INFLUENCER MARKETING AGREEMENT\n\nThis Agreement is made and entered into on "
    ++ formatDate d.start_date ++ " by and between:\n\n"
    ++ d.brand_name ++ " (\"Brand\")\nand\n"
    ++ d.influencer_name ++ " (\"Influencer\")\n\nWHEREAS, Brand desires to engage Influencer for marketing services related to the campaign \""
    ++ d.campaign_name ++ "\" on the "
    ++ d.platform ++ " platform;\n\nNOW, THEREFORE, in consideration of the mutual promises and covenants contained herein, the parties agree as follows:\n\n1. CAMPAIGN DETAILS\n   Campaign Name: "
    ++ d.campaign_name ++ "\n   Platform: "
    ++ d.platform ++ "\n   Campaign Period: "
    ++ formatDate d.start_date ++ " to " ++ formatDate d.end_date
    ++ "\n   Total Compensation: $" ++ jsToLocaleString d.total_fee
    ++ "\n\n2. DELIVERABLES\n   The Influencer agrees to provide the following deliverables:\n"

/-- Section 3 of the template, from the blank line after the deliverables list
through `"upon completion of all deliverables"`.  Both milestone amounts are
`(total_fee * 0.5).toLocaleString()` in the source. -/
def compensationSection (total_fee : ℚ) : String :=
  ("\n\n3. COMPENSATION\n   The Brand agrees to pay the Influencer a total fee of $"
      ++ jsToLocaleString total_fee
      ++ " for the services rendered under this Agreement.\n   Payment Schedule:\n   - 50% ($")
    ++ jsToLocaleString (total_fee * (1 / 2))
    ++ (") upon signing of this Agreement\n   - 50% ($"
      ++ (jsToLocaleString (total_fee * (1 / 2))
        ++ ") upon completion of all deliverables"))

/-- Sections 4–8 and the signature block, through the second
`Date: ${formattedStartDate}` line. -/
def tailSections (d : DealTerms) : String :=
  "\n\n4. CONTENT GUIDELINES\n   - All content must be original and created specifically for this campaign\n   - Content must comply with "
    ++ d.platform ++ "\x27s terms of service\n   - Brand reserves the right to review and approve all content before posting\n   - Influencer must disclose the sponsored nature of the content as per FTC guidelines\n\n5. INTELLECTUAL PROPERTY\n   - Brand grants Influencer a limited license to use Brand\x27s trademarks and materials for the campaign\n   - Influencer retains ownership of their content, but grants Brand a perpetual license to use the content\n   - Brand may repurpose the content for marketing purposes with proper attribution\n\n6. CONFIDENTIALITY\n   - Influencer agrees to keep all campaign details and Brand information confidential\n   - This obligation survives the termination of this Agreement\n\n7. TERMINATION\n   - Either party may terminate this Agreement with 30 days written notice\n   - Brand may terminate immediately for breach of content guidelines\n   - Upon termination, Influencer will be compensated for completed deliverables\n\n8. GOVERNING LAW\n   This Agreement shall be governed by and construed in accordance with the laws of the state of [State], without regard to its conflict of law principles.\n\nIN WITNESS WHEREOF, the parties have executed this Agreement as of the date first written above.\n\nBRAND:\n"
    ++ d.brand_name ++ "\nBy: ________________________\nDate: " ++ formatDate d.start_date
    ++ "\n\nINFLUENCER:\n"
    ++ d.influencer_name ++ "\nBy: ________________________\nDate: " ++ formatDate d.start_date

/-- The footer: `Contract ID` is a fresh `generateContractId()` call made
inside the template (line 125 of the route), and `Generated on` is a fresh
`new Date().toISOString()`. -/
def contractFooter (env : RandEnv) : String :=
  "\n\nContract ID: " ++ (generateContractId env.nowMs env.rand ++ ("\nGenerated on: " ++ env.nowIso))

/-- The route's `generateContractText`: the whole template string, with the
ambient readings made inside the template passed as `env`. -/
def generateContractText (dealTerms : DealTerms) (env : RandEnv) : String :=
  preamble dealTerms
    ++ (deliverablesList dealTerms.deliverables
      ++ (compensationSection dealTerms.total_fee
        ++ (tailSections dealTerms ++ contractFooter env)))

/-! ### Request handler

The `POST` handler parses `{ deal_terms }` from the body and runs the checks
of lines 140–191 in order, inside a `try`/`catch` whose `catch` returns the
500 response `{ error: "Failed to generate contract" }`.

JS-value modelling decisions (each is a faithful restriction of the dynamic
semantics to the shapes the claims need):
* a body without a `deal_terms` field is `none`: the first property access
  `deal_terms.brand_name` throws on `undefined` and lands in the `catch`;
* absent string fields are modelled as `""` (both are falsy for the
  required-field check, and `new Date(undefined)` is as invalid as an
  unparseable string);
* the `deliverables` field is absent (`undefined.length` throws), a number
  (`(n).length` is `undefined`, which is falsy), or an actual array. -/

inductive JsDeliverables where
  | absent : JsDeliverables
  | numVal : ℚ → JsDeliverables
  | arrVal : List Deliverable → JsDeliverables
deriving DecidableEq

structure RawDealTerms where
  brand_name : String
  influencer_name : String
  platform : String
  campaign_name : String
  total_fee : ℚ
  deliverables : JsDeliverables
  start_date : String
  end_date : String
deriving DecidableEq

/-- A well-typed `DealTerms` as it arrives on the wire. -/
def DealTerms.toRaw (d : DealTerms) : RawDealTerms :=
  { brand_name := d.brand_name, influencer_name := d.influencer_name,
    platform := d.platform, campaign_name := d.campaign_name,
    total_fee := d.total_fee, deliverables := .arrVal d.deliverables,
    start_date := d.start_date, end_date := d.end_date }

def RawDealTerms.typed (dt : RawDealTerms) (ds : List Deliverable) : DealTerms :=
  { brand_name := dt.brand_name, influencer_name := dt.influencer_name,
    platform := dt.platform, campaign_name := dt.campaign_name,
    total_fee := dt.total_fee, deliverables := ds,
    start_date := dt.start_date, end_date := dt.end_date }

/-- The three response shapes the route can produce: `NextResponse.json` of
the `ContractResponse` envelope (200), of a `{ error }` body with status 400,
or of the generic `{ error }` body with status 500. -/
inductive Response where
  | success (contract_text contract_id status generated_at : String)
  | clientError (error : String)
  | serverError (error : String)
deriving DecidableEq

/-- The `for (const deliverable of deal_terms.deliverables)` loop of lines
177–191: first failure message wins, `none` means every deliverable passed. -/
def checkDeliverables (ds : List Deliverable) (sd ed : CivilDate) : Option String :=
  match ds with
  | [] => none
  | d :: rest =>
    match parseIsoDate d.due_date with
    | none => some "Invalid deliverable due date"
    | some dd =>
      if dd.code < sd.code ∨ ed.code < dd.code then
        some "Deliverable due date must be within campaign period"
      else checkDeliverables rest sd ed

/-- The `POST` handler.  `idMs`/`idRand` are the `Date.now()` and
`Math.random()` readings of the `generateContractId()` call on line 194,
`env` holds the separate readings made inside `generateContractText`
(lines 125–126), and `generatedAt` is the `new Date().toISOString()` of
line 201. -/
def POST (body : Option RawDealTerms) (idMs : ℕ) (idRand : String)
    (env : RandEnv) (generatedAt : String) : Response :=
  match body with
  | none => .serverError "Failed to generate contract"
  | some dt =>
    if dt.brand_name = "" ∨ dt.influencer_name = "" ∨ dt.platform = "" then
      .clientError "Missing required fields"
    else
      match parseIsoDate dt.start_date, parseIsoDate dt.end_date with
      | none, _ => .clientError "Invalid date format"
      | some _, none => .clientError "Invalid date format"
      | some sd, some ed =>
        if ed.code < sd.code then
          .clientError "End date must be after start date"
        else
          match dt.deliverables with
          | .absent => .serverError "Failed to generate contract"
          | .numVal _ => .clientError "At least one deliverable is required"
          | .arrVal ds =>
            if ds.isEmpty then
              .clientError "At least one deliverable is required"
            else
              match checkDeliverables ds sd ed with
              | some msg => .clientError msg
              | none =>
                .success (generateContractText (dt.typed ds) env)
                  (generateContractId idMs idRand) "draft" generatedAt

/-! ### The six §4.1 validation rules as predicates on a typed request

`violates d k` holds exactly when request `d` violates rule `k` (0-based:
required fields, date format, date order, deliverables non-empty,
deliverable date parse, deliverable date bound). -/

def ruleViolation0 (d : DealTerms) : Bool :=
  decide (d.brand_name = "" ∨ d.influencer_name = "" ∨ d.platform = "")

def ruleViolation1 (d : DealTerms) : Bool :=
  (parseIsoDate d.start_date).isNone || (parseIsoDate d.end_date).isNone

def ruleViolation2 (d : DealTerms) : Bool :=
  match parseIsoDate d.start_date, parseIsoDate d.end_date with
  | some sd, some ed => decide (ed.code < sd.code)
  | _, _ => false

def ruleViolation3 (d : DealTerms) : Bool :=
  d.deliverables.isEmpty

def ruleViolation4 (d : DealTerms) : Bool :=
  d.deliverables.any fun dv => (parseIsoDate dv.due_date).isNone

def ruleViolation5 (d : DealTerms) : Bool :=
  match parseIsoDate d.start_date, parseIsoDate d.end_date with
  | some sd, some ed =>
    d.deliverables.any fun dv =>
      match parseIsoDate dv.due_date with
      | some dd => decide (dd.code < sd.code ∨ ed.code < dd.code)
      | none => false
  | _, _ => false

def violates (d : DealTerms) (k : Fin 6) : Bool :=
  match k with
  | ⟨0, _⟩ => ruleViolation0 d
  | ⟨1, _⟩ => ruleViolation1 d
  | ⟨2, _⟩ => ruleViolation2 d
  | ⟨3, _⟩ => ruleViolation3 d
  | ⟨4, _⟩ => ruleViolation4 d
  | ⟨5, _⟩ => ruleViolation5 d

/-- The §4.1 messages, in rule order. -/
def ruleMsg (k : Fin 6) : String :=
  match k with
  | ⟨0, _⟩ => "Missing required fields"
  | ⟨1, _⟩ => "Invalid date format"
  | ⟨2, _⟩ => "End date must be after start date"
  | ⟨3, _⟩ => "At least one deliverable is required"
  | ⟨4, _⟩ => "Invalid deliverable due date"
  | ⟨5, _⟩ => "Deliverable due date must be within campaign period"

/-- JS `String.prototype.trim`: drop leading and trailing whitespace. -/
def jsTrim (s : String) : String :=
  String.mk (((s.data.dropWhile Char.isWhitespace).reverse.dropWhile Char.isWhitespace).reverse)

/-- The client-side form check of `validateForm` in
`src/frontend/src/app/contract/page.tsx` (lines 133–136): a required text
field passes only when its trimmed value is non-empty
(`!dealTerms.brand_name.trim()` flags the field). -/
def uiFieldPresent (s : String) : Bool :=
  decide (¬ (jsTrim s = ""))

/-! ### Concrete example requests (used by counterexamples and witnesses) -/

/-- Scenario 1 of §8 of the spec: a fully valid request. -/
def exTerms : DealTerms :=
  { brand_name := "EcoStyle Apparel", influencer_name := "Jamie Lee",
    platform := "Instagram", campaign_name := "Sustainable Summer Collection",
    total_fee := 3500,
    deliverables := [{ type := "Instagram Reel", description := "Showcase reel",
                       quantity := 2, due_date := "2024-08-10" }],
    start_date := "2024-08-01", end_date := "2024-08-31" }

def exEnv : RandEnv := ⟨1723000000001, "x1y2z3", "2024-08-07T00:00:00.001Z"⟩

/-- Valid except that the sole deliverable has `quantity = 0`. -/
def exTermsQty0 : DealTerms :=
  { exTerms with deliverables := [{ type := "Instagram Reel", description := "Showcase reel",
                                    quantity := 0, due_date := "2024-08-10" }] }

/-- Valid except `total_fee = 0`. -/
def exTermsFee0 : DealTerms := { exTerms with total_fee := 0 }

/-- Valid except `brand_name` is a single space. -/
def exTermsWs : DealTerms := { exTerms with brand_name := " " }

/-- Valid except `platform` is whitespace only (space, tab, space). -/
def exTermsWsPlat : DealTerms := { exTerms with platform := " \t " }

/-- Valid except `start_date` is unparseable (violates only rule 2 of §4.1). -/
def exTermsBadDate : DealTerms := { exTerms with start_date := "bogus" }

/-- Valid, with `end_date = start_date` and the deliverable due on that same day. -/
def exTermsEqDates : DealTerms :=
  { exTerms with end_date := "2024-08-01",
                 deliverables := [{ type := "Instagram Reel", description := "Showcase reel",
                                    quantity := 1, due_date := "2024-08-01" }] }

/-- A shape-violating body: `deliverables` is the number `0`, not an array. -/
def exRawNum : RawDealTerms := { exTerms.toRaw with deliverables := .numVal 0 }

/-- A shape-violating body: `deliverables` is absent. -/
def exRawAbsent : RawDealTerms := { exTerms.toRaw with deliverables := .absent }

end InfluencerFlow

namespace InfluencerFlow

/-! ### Helper lemmas -/

theorem strAssoc (a b c : String) : a ++ b ++ c = a ++ (b ++ c) := by
  apply String.ext; simp [String.data_append, List.append_assoc]

theorem renderDeliverables_length (j : ℕ) (l : List Deliverable) :
    (renderDeliverables j l).length = l.length := by
  induction l generalizing j with
  | nil => rfl
  | cons d rest ih => simp [renderDeliverables, ih]

theorem renderDeliverables_get? (l : List Deliverable) :
    ∀ (j i : ℕ) (h : i < l.length),
      (renderDeliverables j l).get? i = some (renderDeliverable (j + i) (l.get ⟨i, h⟩)) := by
  induction l with
  | nil => intro j i h; simp at h
  | cons d rest ih =>
    intro j i h
    cases i with
    | zero => rfl
    | succ i =>
      have h' : i < rest.length := by
        have : i + 1 < rest.length + 1 := h
        omega
      have hrec := ih (j + 1) i h'
      rw [show j + 1 + i = j + (i + 1) from by omega] at hrec
      exact hrec

theorem checkDeliverables_eq_none_iff (sd ed : CivilDate) (l : List Deliverable) :
    checkDeliverables l sd ed = none ↔
      ∀ dv ∈ l, ∃ dd, parseIsoDate dv.due_date = some dd ∧
        ¬(dd.code < sd.code ∨ ed.code < dd.code) := by
  induction l with
  | nil => simp [checkDeliverables]
  | cons d rest ih =>
    simp only [checkDeliverables]
    rcases hp : parseIsoDate d.due_date with _ | dd
    · simp [hp]
    · by_cases hr : dd.code < sd.code ∨ ed.code < dd.code
      · simp only [if_pos hr]
        constructor
        · intro h; cases h
        · intro h
          rcases h d (List.mem_cons_self d rest) with ⟨dd', hdd', hin⟩
          rw [hp] at hdd'; cases hdd'
          exact absurd hr hin
      · simp only [if_neg hr, ih]
        constructor
        · intro h dv hdv
          rcases List.mem_cons.mp hdv with rfl | hdv'
          · exact ⟨dd, hp, hr⟩
          · exact h dv hdv'
        · intro h dv hdv
          exact h dv (List.mem_cons_of_mem d hdv)

theorem checkDeliverables_eq_invalid (sd ed : CivilDate) (l : List Deliverable)
    (h4 : ∃ dv ∈ l, parseIsoDate dv.due_date = none)
    (h5 : ∀ dv ∈ l, ∀ dd, parseIsoDate dv.due_date = some dd →
        ¬(dd.code < sd.code ∨ ed.code < dd.code)) :
    checkDeliverables l sd ed = some "Invalid deliverable due date" := by
  induction l with
  | nil => rcases h4 with ⟨dv, h, _⟩; cases h
  | cons d rest ih =>
    rcases hp : parseIsoDate d.due_date with _ | dd
    · simp [checkDeliverables, hp]
    · have hr := h5 d (List.mem_cons_self d rest) dd hp
      simp only [checkDeliverables, hp, if_neg hr]
      rcases h4 with ⟨dv, hdv, hnone⟩
      rcases List.mem_cons.mp hdv with rfl | hdv'
      · rw [hp] at hnone; cases hnone
      · exact ih ⟨dv, hdv', hnone⟩
          (fun dv' hdv' dd' hdd' => h5 dv' (List.mem_cons_of_mem d hdv') dd' hdd')

theorem checkDeliverables_eq_range (sd ed : CivilDate) (l : List Deliverable)
    (h4 : ∀ dv ∈ l, (parseIsoDate dv.due_date).isSome = true)
    (h5 : ∃ dv ∈ l, ∃ dd, parseIsoDate dv.due_date = some dd ∧
        (dd.code < sd.code ∨ ed.code < dd.code)) :
    checkDeliverables l sd ed = some "Deliverable due date must be within campaign period" := by
  induction l with
  | nil => rcases h5 with ⟨dv, h, _⟩; cases h
  | cons d rest ih =>
    rcases hp : parseIsoDate d.due_date with _ | dd
    · have := h4 d (List.mem_cons_self d rest); rw [hp] at this; cases this
    · by_cases hr : dd.code < sd.code ∨ ed.code < dd.code
      · simp only [checkDeliverables, hp, if_pos hr]
      · simp only [checkDeliverables, hp, if_neg hr]
        rcases h5 with ⟨dv, hdv, dd', hdd', hout⟩
        rcases List.mem_cons.mp hdv with rfl | hdv'
        · rw [hp] at hdd'; cases hdd'; exact absurd hout hr
        · exact ih (fun dv' hdv' => h4 dv' (List.mem_cons_of_mem d hdv'))
            ⟨dv, hdv', dd', hdd', hout⟩

theorem checkDeliverables_msg (sd ed : CivilDate) (l : List Deliverable) (m : String)
    (h : checkDeliverables l sd ed = some m) :
    m = "Invalid deliverable due date" ∨
      m = "Deliverable due date must be within campaign period" := by
  induction l with
  | nil => cases h
  | cons d rest ih =>
    rcases hp : parseIsoDate d.due_date with _ | dd
    · simp only [checkDeliverables, hp] at h
      exact Or.inl (Option.some.inj h).symm
    · by_cases hr : dd.code < sd.code ∨ ed.code < dd.code
      · simp only [checkDeliverables, hp, if_pos hr] at h
        exact Or.inr (Option.some.inj h).symm
      · simp only [checkDeliverables, hp, if_neg hr] at h
        exact ih h

end InfluencerFlow

namespace InfluencerFlow

theorem post_success_of_valid (d : DealTerms) (idMs : ℕ) (idRand : String)
    (env : RandEnv) (g : String) (h : ∀ j : Fin 6, violates d j = false) :
    POST (some d.toRaw) idMs idRand env g =
      .success (generateContractText d env) (generateContractId idMs idRand) "draft" g := by
  have h0 := h ⟨0, by omega⟩
  have h1 := h ⟨1, by omega⟩
  have h2 := h ⟨2, by omega⟩
  have h3 := h ⟨3, by omega⟩
  have h4 := h ⟨4, by omega⟩
  have h5 := h ⟨5, by omega⟩
  simp only [violates] at h0 h1 h2 h3 h4 h5
  have hb : ¬(d.brand_name = "" ∨ d.influencer_name = "" ∨ d.platform = "") := by
    simpa [ruleViolation0] using h0
  rcases hps : parseIsoDate d.start_date with _ | sd
  · simp [ruleViolation1, hps] at h1
  rcases hpe : parseIsoDate d.end_date with _ | ed
  · simp [ruleViolation1, hps, hpe] at h1
  have horder : ¬(ed.code < sd.code) := by
    simp only [ruleViolation2, hps, hpe] at h2
    simpa using h2
  have hne : d.deliverables.isEmpty = false := by simpa [ruleViolation3] using h3
  have hchk : checkDeliverables d.deliverables sd ed = none := by
    rw [checkDeliverables_eq_none_iff]
    intro dv hdv
    rcases hpd : parseIsoDate dv.due_date with _ | dd
    · exfalso
      have : ruleViolation4 d = true := by
        simp only [ruleViolation4, List.any_eq_true]
        exact ⟨dv, hdv, by simp [hpd]⟩
      rw [this] at h4; cases h4
    · refine ⟨dd, rfl, ?_⟩
      intro hout
      have : ruleViolation5 d = true := by
        simp only [ruleViolation5, hps, hpe, List.any_eq_true]
        exact ⟨dv, hdv, by simp [hpd, hout]⟩
      rw [this] at h5; cases h5
  unfold POST
  simp only [DealTerms.toRaw]
  rw [if_neg hb]
  simp only [hps, hpe]
  rw [if_neg horder]
  rw [if_neg (by simp [hne])]
  simp only [hchk]
  rfl

theorem violates_false_of_post_success (d : DealTerms) (idMs : ℕ) (idRand : String)
    (env : RandEnv) (g txt cid st gat : String)
    (h : POST (some d.toRaw) idMs idRand env g = .success txt cid st gat) :
    ∀ j : Fin 6, violates d j = false := by
  unfold POST at h
  simp only [DealTerms.toRaw] at h
  by_cases hb : d.brand_name = "" ∨ d.influencer_name = "" ∨ d.platform = ""
  · rw [if_pos hb] at h; cases h
  rw [if_neg hb] at h
  rcases hps : parseIsoDate d.start_date with _ | sd
  · simp only [hps] at h; cases h
  rcases hpe : parseIsoDate d.end_date with _ | ed
  · simp only [hps, hpe] at h; cases h
  simp only [hps, hpe] at h
  by_cases horder : ed.code < sd.code
  · rw [if_pos horder] at h; cases h
  rw [if_neg horder] at h
  by_cases hne : d.deliverables.isEmpty
  · rw [if_pos hne] at h; cases h
  rw [if_neg hne] at h
  rcases hchk : checkDeliverables d.deliverables sd ed with _ | msg
  swap
  · simp only [hchk] at h; cases h
  have hall := (checkDeliverables_eq_none_iff sd ed d.deliverables).mp hchk
  rintro ⟨j, hj⟩
  interval_cases j <;> simp only [violates]
  · simpa [ruleViolation0] using hb
  · simp [ruleViolation1, hps, hpe]
  · simp only [ruleViolation2, hps, hpe]
    simpa using horder
  · simpa [ruleViolation3] using hne
  · simp only [ruleViolation4, List.any_eq_false]
    intro dv hdv
    rcases hall dv hdv with ⟨dd, hdd, _⟩
    simp [hdd]
  · simp only [ruleViolation5, hps, hpe, List.any_eq_false]
    intro dv hdv
    rcases hall dv hdv with ⟨dd, hdd, hin⟩
    simp [hdd, hin]

end InfluencerFlow


namespace InfluencerFlow

theorem post_missing_of_rule0 (d : DealTerms) (idMs : ℕ) (idRand : String)
    (env : RandEnv) (g : String) (h0 : ruleViolation0 d = true) :
    POST (some d.toRaw) idMs idRand env g = .clientError "Missing required fields" := by
  have hb : d.brand_name = "" ∨ d.influencer_name = "" ∨ d.platform = "" := by
    simpa [ruleViolation0] using h0
  unfold POST
  simp only [DealTerms.toRaw]
  rw [if_pos hb]

theorem post_badformat_of_rule1 (d : DealTerms) (idMs : ℕ) (idRand : String)
    (env : RandEnv) (g : String) (h0 : ruleViolation0 d = false)
    (h1 : ruleViolation1 d = true) :
    POST (some d.toRaw) idMs idRand env g = .clientError "Invalid date format" := by
  have hb : ¬(d.brand_name = "" ∨ d.influencer_name = "" ∨ d.platform = "") := by
    simpa [ruleViolation0] using h0
  unfold POST
  simp only [DealTerms.toRaw]
  rw [if_neg hb]
  rcases hps : parseIsoDate d.start_date with _ | sd
  · simp only [hps]
  · rcases hpe : parseIsoDate d.end_date with _ | ed
    · simp only [hps, hpe]
    · exfalso; simp [ruleViolation1, hps, hpe] at h1

theorem post_order_of_rule2 (d : DealTerms) (idMs : ℕ) (idRand : String)
    (env : RandEnv) (g : String) (h0 : ruleViolation0 d = false)
    (h2 : ruleViolation2 d = true) :
    POST (some d.toRaw) idMs idRand env g = .clientError "End date must be after start date" := by
  have hb : ¬(d.brand_name = "" ∨ d.influencer_name = "" ∨ d.platform = "") := by
    simpa [ruleViolation0] using h0
  unfold POST
  simp only [DealTerms.toRaw]
  rw [if_neg hb]
  rcases hps : parseIsoDate d.start_date with _ | sd
  · exfalso; simp [ruleViolation2, hps] at h2
  rcases hpe : parseIsoDate d.end_date with _ | ed
  · exfalso; simp [ruleViolation2, hps, hpe] at h2
  have hlt : ed.code < sd.code := by simpa [ruleViolation2, hps, hpe] using h2
  simp only [hps, hpe]
  rw [if_pos hlt]

theorem post_nodeliv_of_rule3 (d : DealTerms) (idMs : ℕ) (idRand : String)
    (env : RandEnv) (g : String) (h0 : ruleViolation0 d = false)
    (h1 : ruleViolation1 d = false) (h2 : ruleViolation2 d = false)
    (h3 : ruleViolation3 d = true) :
    POST (some d.toRaw) idMs idRand env g = .clientError "At least one deliverable is required" := by
  have hb : ¬(d.brand_name = "" ∨ d.influencer_name = "" ∨ d.platform = "") := by
    simpa [ruleViolation0] using h0
  unfold POST
  simp only [DealTerms.toRaw]
  rw [if_neg hb]
  rcases hps : parseIsoDate d.start_date with _ | sd
  · exfalso; simp [ruleViolation1, hps] at h1
  rcases hpe : parseIsoDate d.end_date with _ | ed
  · exfalso; simp [ruleViolation1, hps, hpe] at h1
  have horder : ¬(ed.code < sd.code) := by
    simp only [ruleViolation2, hps, hpe] at h2; simpa using h2
  simp only [hps, hpe]
  rw [if_neg horder]
  have hemp : d.deliverables.isEmpty = true := by simpa [ruleViolation3] using h3
  rw [if_pos hemp]

theorem post_dueparse_of_rule4 (d : DealTerms) (idMs : ℕ) (idRand : String)
    (env : RandEnv) (g : String) (h0 : ruleViolation0 d = false)
    (h1 : ruleViolation1 d = false) (h2 : ruleViolation2 d = false)
    (h4 : ruleViolation4 d = true) (h5 : ruleViolation5 d = false) :
    POST (some d.toRaw) idMs idRand env g = .clientError "Invalid deliverable due date" := by
  have hb : ¬(d.brand_name = "" ∨ d.influencer_name = "" ∨ d.platform = "") := by
    simpa [ruleViolation0] using h0
  unfold POST
  simp only [DealTerms.toRaw]
  rw [if_neg hb]
  rcases hps : parseIsoDate d.start_date with _ | sd
  · exfalso; simp [ruleViolation1, hps] at h1
  rcases hpe : parseIsoDate d.end_date with _ | ed
  · exfalso; simp [ruleViolation1, hps, hpe] at h1
  have horder : ¬(ed.code < sd.code) := by
    simp only [ruleViolation2, hps, hpe] at h2; simpa using h2
  simp only [hps, hpe]
  rw [if_neg horder]
  rcases hbad : d.deliverables.any (fun dv => (parseIsoDate dv.due_date).isNone) with _|_
  · exfalso; rw [ruleViolation4, hbad] at h4; cases h4
  have hnonempty : d.deliverables.isEmpty = false := by
    rcases hl : d.deliverables with _ | ⟨dv, rest⟩
    · rw [hl] at hbad; simp at hbad
    · simp
  rw [if_neg (by simp [hnonempty])]
  have hchk : checkDeliverables d.deliverables sd ed = some "Invalid deliverable due date" := by
    apply checkDeliverables_eq_invalid
    · rcases List.any_eq_true.mp hbad with ⟨dv, hdv, hnone⟩
      exact ⟨dv, hdv, by simpa using hnone⟩
    · intro dv hdv dd hdd hout
      have : ruleViolation5 d = true := by
        simp only [ruleViolation5, hps, hpe, List.any_eq_true]
        exact ⟨dv, hdv, by simp [hdd, hout]⟩
      rw [this] at h5; cases h5
  simp only [hchk]

theorem post_duerange_of_rule5 (d : DealTerms) (idMs : ℕ) (idRand : String)
    (env : RandEnv) (g : String) (h0 : ruleViolation0 d = false)
    (h1 : ruleViolation1 d = false) (h2 : ruleViolation2 d = false)
    (h4 : ruleViolation4 d = false) (h5 : ruleViolation5 d = true) :
    POST (some d.toRaw) idMs idRand env g
      = .clientError "Deliverable due date must be within campaign period" := by
  have hb : ¬(d.brand_name = "" ∨ d.influencer_name = "" ∨ d.platform = "") := by
    simpa [ruleViolation0] using h0
  unfold POST
  simp only [DealTerms.toRaw]
  rw [if_neg hb]
  rcases hps : parseIsoDate d.start_date with _ | sd
  · exfalso; simp [ruleViolation5, hps] at h5
  rcases hpe : parseIsoDate d.end_date with _ | ed
  · exfalso; simp [ruleViolation5, hps, hpe] at h5
  have horder : ¬(ed.code < sd.code) := by
    simp only [ruleViolation2, hps, hpe] at h2; simpa using h2
  simp only [hps, hpe]
  rw [if_neg horder]
  simp only [ruleViolation5, hps, hpe] at h5
  rcases List.any_eq_true.mp h5 with ⟨dv, hdv, hviol⟩
  rcases hpd : parseIsoDate dv.due_date with _ | dd
  · exfalso; rw [hpd] at hviol; cases hviol
  rw [hpd] at hviol
  have hout : dd.code < sd.code ∨ ed.code < dd.code := by simpa using hviol
  have hnonempty : d.deliverables.isEmpty = false := by
    rcases hl : d.deliverables with _ | ⟨dv0, rest⟩
    · rw [hl] at hdv; cases hdv
    · simp
  rw [if_neg (by simp [hnonempty])]
  have hchk : checkDeliverables d.deliverables sd ed
      = some "Deliverable due date must be within campaign period" := by
    apply checkDeliverables_eq_range
    · intro dv2 hdv2
      rw [ruleViolation4] at h4
      have hno := List.any_eq_false.mp h4 dv2 hdv2
      rcases hq : parseIsoDate dv2.due_date with _ | q
      · rw [hq] at hno; simp at hno
      · simp
    · exact ⟨dv, hdv, dd, hpd, hout⟩
  simp only [hchk]

end InfluencerFlow

namespace InfluencerFlow

/-! ### Claim theorems -/

/-- C1: the claim says the footer's `Contract ID:` line of the returned
`contract_text` carries the same identifier as the `contract_id` field of the
success envelope.  The code instead calls `generateContractId()` afresh inside
the template (line 125), independently of the handler's call on line 194: at
this concrete valid request (with the two calls observing different
`Date.now()`/`Math.random()` readings) the handler succeeds, the composed text
ends in the footer, and the footer's ID differs from the envelope's. -/
theorem c1_footer_id_differs :
    POST (some exTerms.toRaw) 1723000000000 "a1b2c3" exEnv "2024-08-07T00:00:00.002Z"
        = .success (generateContractText exTerms exEnv)
            (generateContractId 1723000000000 "a1b2c3") "draft" "2024-08-07T00:00:00.002Z"
      ∧ (∃ pre, generateContractText exTerms exEnv = pre ++ contractFooter exEnv)
      ∧ contractFooter exEnv
          = "\n\nContract ID: " ++ (generateContractId exEnv.nowMs exEnv.rand
              ++ ("\nGenerated on: " ++ exEnv.nowIso))
      ∧ generateContractId exEnv.nowMs exEnv.rand ≠ generateContractId 1723000000000 "a1b2c3" := by
  refine ⟨by rfl, ?_, rfl, by decide⟩
  refine ⟨preamble exTerms ++ (deliverablesList exTerms.deliverables
    ++ (compensationSection exTerms.total_fee ++ tailSections exTerms)), ?_⟩
  simp only [generateContractText, strAssoc]

/-- C2: a request that violates exactly one of the six §4.1 rules (and
satisfies the other five) is answered with the 400 response carrying exactly
that rule's message, and no contract is produced. -/
theorem c2_single_violation_message (d : DealTerms) (k : Fin 6) (hv : violates d k = true)
    (ho : ∀ j : Fin 6, j ≠ k → violates d j = false)
    (idMs : ℕ) (idRand : String) (env : RandEnv) (g : String) :
    POST (some d.toRaw) idMs idRand env g = .clientError (ruleMsg k) := by
  rcases k with ⟨k, hk⟩
  interval_cases k
  · exact post_missing_of_rule0 d idMs idRand env g (by simpa [violates] using hv)
  · exact post_badformat_of_rule1 d idMs idRand env g
      (by simpa [violates] using ho ⟨0, by omega⟩ (Fin.ne_of_val_ne (show (0:ℕ) ≠ 1 by omega)))
      (by simpa [violates] using hv)
  · exact post_order_of_rule2 d idMs idRand env g
      (by simpa [violates] using ho ⟨0, by omega⟩ (Fin.ne_of_val_ne (show (0:ℕ) ≠ 2 by omega)))
      (by simpa [violates] using hv)
  · exact post_nodeliv_of_rule3 d idMs idRand env g
      (by simpa [violates] using ho ⟨0, by omega⟩ (Fin.ne_of_val_ne (show (0:ℕ) ≠ 3 by omega)))
      (by simpa [violates] using ho ⟨1, by omega⟩ (Fin.ne_of_val_ne (show (1:ℕ) ≠ 3 by omega)))
      (by simpa [violates] using ho ⟨2, by omega⟩ (Fin.ne_of_val_ne (show (2:ℕ) ≠ 3 by omega)))
      (by simpa [violates] using hv)
  · exact post_dueparse_of_rule4 d idMs idRand env g
      (by simpa [violates] using ho ⟨0, by omega⟩ (Fin.ne_of_val_ne (show (0:ℕ) ≠ 4 by omega)))
      (by simpa [violates] using ho ⟨1, by omega⟩ (Fin.ne_of_val_ne (show (1:ℕ) ≠ 4 by omega)))
      (by simpa [violates] using ho ⟨2, by omega⟩ (Fin.ne_of_val_ne (show (2:ℕ) ≠ 4 by omega)))
      (by simpa [violates] using hv)
      (by simpa [violates] using ho ⟨5, by omega⟩ (Fin.ne_of_val_ne (show (5:ℕ) ≠ 4 by omega)))
  · exact post_duerange_of_rule5 d idMs idRand env g
      (by simpa [violates] using ho ⟨0, by omega⟩ (Fin.ne_of_val_ne (show (0:ℕ) ≠ 5 by omega)))
      (by simpa [violates] using ho ⟨1, by omega⟩ (Fin.ne_of_val_ne (show (1:ℕ) ≠ 5 by omega)))
      (by simpa [violates] using ho ⟨2, by omega⟩ (Fin.ne_of_val_ne (show (2:ℕ) ≠ 5 by omega)))
      (by simpa [violates] using ho ⟨4, by omega⟩ (Fin.ne_of_val_ne (show (4:ℕ) ≠ 5 by omega)))
      (by simpa [violates] using hv)

/-- Witness for C2 at a concrete input: `exTermsBadDate` violates exactly
rule 1 (invalid date format) and is answered with that rule's message. -/
theorem c2_single_violation_message_witness :
    violates exTermsBadDate 1 = true
      ∧ POST (some exTermsBadDate.toRaw) 7 "r0" exEnv "t0" = .clientError (ruleMsg 1) :=
  ⟨by decide,
    c2_single_violation_message exTermsBadDate 1 (by decide) (by decide) 7 "r0" exEnv "t0"⟩

/-- C3: the composer is deterministic in `DealTerms` plus the ambient
readings: equal ID and time readings give byte-identical output. -/
theorem c3_composer_deterministic (d : DealTerms) (e1 e2 : RandEnv)
    (hms : e1.nowMs = e2.nowMs) (hr : e1.rand = e2.rand) (hiso : e1.nowIso = e2.nowIso) :
    generateContractText d e1 = generateContractText d e2 := by
  cases e1; cases e2
  cases hms; cases hr; cases hiso
  rfl

/-- Witness for C3 at a concrete input. -/
theorem c3_composer_deterministic_witness :
    exEnv.nowMs = exEnv.nowMs ∧ exEnv.rand = exEnv.rand ∧ exEnv.nowIso = exEnv.nowIso
      ∧ generateContractText exTerms exEnv = generateContractText exTerms exEnv :=
  ⟨rfl, rfl, rfl, c3_composer_deterministic exTerms exEnv exEnv rfl rfl rfl⟩

/-- C4: all date-range checks are inclusive.  First conjunct: a request whose
parsed `end_date` equals its parsed `start_date` is never rejected with the
date-order message.  Second conjunct: a deliverable whose parsed due date
equals either end of the campaign period passes the within-period check (the
loop moves on to the remaining deliverables). -/
theorem c4_inclusive_bounds :
    (∀ (d : DealTerms) (sd ed : CivilDate) (idMs : ℕ) (idRand g : String) (env : RandEnv),
        parseIsoDate d.start_date = some sd → parseIsoDate d.end_date = some ed →
        sd.code = ed.code →
        POST (some d.toRaw) idMs idRand env g ≠ .clientError "End date must be after start date")
      ∧ (∀ (dv : Deliverable) (rest : List Deliverable) (sd ed dd : CivilDate),
        parseIsoDate dv.due_date = some dd → sd.code ≤ ed.code →
        (dd.code = sd.code ∨ dd.code = ed.code) →
        checkDeliverables (dv :: rest) sd ed = checkDeliverables rest sd ed) := by
  constructor
  · intro d sd ed idMs idRand g env hps hpe heq hcontra
    unfold POST at hcontra
    simp only [DealTerms.toRaw] at hcontra
    by_cases hb : d.brand_name = "" ∨ d.influencer_name = "" ∨ d.platform = ""
    · rw [if_pos hb] at hcontra
      injection hcontra with hmsg
      exact absurd hmsg (by decide)
    rw [if_neg hb] at hcontra
    simp only [hps, hpe] at hcontra
    have horder : ¬(ed.code < sd.code) := by omega
    rw [if_neg horder] at hcontra
    by_cases hemp : d.deliverables.isEmpty
    · rw [if_pos hemp] at hcontra
      injection hcontra with hmsg
      exact absurd hmsg (by decide)
    rw [if_neg hemp] at hcontra
    rcases hchk : checkDeliverables d.deliverables sd ed with _ | msg
    · simp only [hchk] at hcontra
      exact Response.noConfusion hcontra
    · simp only [hchk] at hcontra
      injection hcontra with hmsg
      rcases checkDeliverables_msg sd ed d.deliverables msg hchk with rfl | rfl
      · exact absurd hmsg (by decide)
      · exact absurd hmsg (by decide)
  · intro dv rest sd ed dd hp hle hor
    have hin : ¬(dd.code < sd.code ∨ ed.code < dd.code) := by
      rcases hor with h | h <;> omega
    simp only [checkDeliverables, hp, if_neg hin]

/-- Witness for C4 at concrete inputs: `exTermsEqDates` has equal start and
end dates and a deliverable due on that same day. -/
theorem c4_inclusive_bounds_witness :
    parseIsoDate exTermsEqDates.start_date = some ⟨2024, 8, 1⟩
      ∧ parseIsoDate exTermsEqDates.end_date = some ⟨2024, 8, 1⟩
      ∧ POST (some exTermsEqDates.toRaw) 5 "r4" exEnv "t4"
          ≠ .clientError "End date must be after start date"
      ∧ checkDeliverables [⟨"Instagram Reel", "Showcase reel", 1, "2024-08-01"⟩]
            ⟨2024, 8, 1⟩ ⟨2024, 8, 31⟩
          = checkDeliverables [] ⟨2024, 8, 1⟩ ⟨2024, 8, 31⟩ :=
  ⟨by decide, by decide,
    c4_inclusive_bounds.1 exTermsEqDates ⟨2024, 8, 1⟩ ⟨2024, 8, 1⟩ 5 "r4" "t4" exEnv
      (by decide) (by decide) rfl,
    c4_inclusive_bounds.2 ⟨"Instagram Reel", "Showcase reel", 1, "2024-08-01"⟩ []
      ⟨2024, 8, 1⟩ ⟨2024, 8, 31⟩ ⟨2024, 8, 1⟩ (by decide) (by decide) (Or.inl rfl)⟩

/-- C5: in the COMPENSATION section both rendered milestone amounts are the
currency formatting of `total_fee * 0.5`, their unformatted sum is the fee,
and the section appears in every composed contract text. -/
theorem c5_payment_split (f : ℚ) :
    (∃ pre mid post, compensationSection f
        = pre ++ jsToLocaleString (f * (1 / 2))
            ++ (mid ++ (jsToLocaleString (f * (1 / 2)) ++ post)))
      ∧ f * (1 / 2) + f * (1 / 2) = f
      ∧ ∀ (d : DealTerms) (env : RandEnv), ∃ a b,
          generateContractText d env = a ++ (compensationSection d.total_fee ++ b) := by
  refine ⟨⟨_, _, _, rfl⟩, by ring, ?_⟩
  intro d env
  refine ⟨preamble d ++ deliverablesList d.deliverables,
    tailSections d ++ contractFooter env, ?_⟩
  simp only [generateContractText, strAssoc]

/-- C6 counterexample: the claim says a deliverable with `quantity < 1` causes
the whole request to be rejected with no contract generated; the handler never
checks `quantity`, and this request (valid except `quantity = 0`) yields a
contract. -/
theorem c6_quantity_not_rejected :
    exTermsQty0.deliverables.any (fun dv => decide (dv.quantity < 1)) = true
      ∧ POST (some exTermsQty0.toRaw) 11 "r6" exEnv "t6"
          = .success (generateContractText exTermsQty0 exEnv)
              (generateContractId 11 "r6") "draft" "t6" :=
  ⟨by decide, by rfl⟩

/-- C6 (amended): rejection is all-or-nothing for the six handler checks of
§4.1 — any such violation prevents a success response — but the §3-only field
constraints (`quantity ≥ 1`, non-empty deliverable `type`/`description`,
non-empty `campaign_name`) are not enforced: a request that violates only
those and passes the six checks is accepted and a contract is generated. -/
theorem c6_all_or_nothing_amended :
    (∀ (d : DealTerms) (idMs : ℕ) (idRand : String) (env : RandEnv) (g : String) (j : Fin 6),
        violates d j = true →
        ∀ txt cid st gat, POST (some d.toRaw) idMs idRand env g ≠ .success txt cid st gat)
      ∧ (∀ (d : DealTerms) (idMs : ℕ) (idRand : String) (env : RandEnv) (g : String),
        (d.campaign_name = "" ∨ ∃ dv ∈ d.deliverables,
            dv.quantity < 1 ∨ dv.type = "" ∨ dv.description = "") →
        (∀ j : Fin 6, violates d j = false) →
        POST (some d.toRaw) idMs idRand env g
          = .success (generateContractText d env) (generateContractId idMs idRand) "draft" g) := by
  constructor
  · intro d idMs idRand env g j hv txt cid st gat hcon
    have := violates_false_of_post_success d idMs idRand env g txt cid st gat hcon j
    rw [hv] at this
    cases this
  · intro d idMs idRand env g _ hvalid
    exact post_success_of_valid d idMs idRand env g hvalid

/-- Witness for the amended C6 at concrete inputs. -/
theorem c6_all_or_nothing_amended_witness :
    (∃ dv ∈ exTermsQty0.deliverables, dv.quantity < 1 ∨ dv.type = "" ∨ dv.description = "")
      ∧ POST (some exTermsQty0.toRaw) 12 "r6b" exEnv "t6b"
          = .success (generateContractText exTermsQty0 exEnv)
              (generateContractId 12 "r6b") "draft" "t6b"
      ∧ violates exTermsBadDate 1 = true
      ∧ POST (some exTermsBadDate.toRaw) 13 "r6c" exEnv "t6c" ≠ .success "a" "b" "c" "d" :=
  ⟨by decide,
    c6_all_or_nothing_amended.2 exTermsQty0 12 "r6b" exEnv "t6b" (by decide) (by decide),
    by decide,
    c6_all_or_nothing_amended.1 exTermsBadDate 13 "r6c" exEnv "t6c" 1 (by decide) "a" "b" "c" "d"⟩

/-- C7: the handler's required-field check depends only on `brand_name`,
`influencer_name` and `platform`; and a request with `total_fee ≤ 0` that
passes the six §4.1 checks is not rejected — it reaches the composer and a
contract is produced. -/
theorem c7_fee_not_validated :
    (∀ d1 d2 : DealTerms, d1.brand_name = d2.brand_name →
        d1.influencer_name = d2.influencer_name → d1.platform = d2.platform →
        ruleViolation0 d1 = ruleViolation0 d2)
      ∧ (∀ (d : DealTerms) (idMs : ℕ) (idRand : String) (env : RandEnv) (g : String),
        d.total_fee ≤ 0 → (∀ j : Fin 6, violates d j = false) →
        POST (some d.toRaw) idMs idRand env g
          = .success (generateContractText d env) (generateContractId idMs idRand) "draft" g) := by
  constructor
  · intro d1 d2 h1 h2 h3
    simp only [ruleViolation0, h1, h2, h3]
  · intro d idMs idRand env g _ hvalid
    exact post_success_of_valid d idMs idRand env g hvalid

/-- Witness for C7: `exTermsFee0` has `total_fee = 0`, passes all six checks,
and produces a contract. -/
theorem c7_fee_not_validated_witness :
    exTermsFee0.total_fee ≤ 0
      ∧ POST (some exTermsFee0.toRaw) 21 "r7" exEnv "t7"
          = .success (generateContractText exTermsFee0 exEnv)
              (generateContractId 21 "r7") "draft" "t7"
      ∧ ruleViolation0 exTermsFee0 = ruleViolation0 exTerms :=
  ⟨by decide,
    c7_fee_not_validated.2 exTermsFee0 21 "r7" exEnv "t7" (by decide) (by decide),
    c7_fee_not_validated.1 exTermsFee0 exTerms rfl rfl rfl⟩

/-- C8 counterexample: the claim says every body that does not match the
envelope shape gets the 500 response, never a 400 validation message.  But a
`deliverables` field holding the number `0` (not an array) has an `undefined`
`.length`, which is falsy, so the handler answers 400
"At least one deliverable is required". -/
theorem c8_nonarray_gets_400 :
    exRawNum.deliverables = .numVal 0
      ∧ POST (some exRawNum) 2 "r8" exEnv "t8"
          = .clientError "At least one deliverable is required" :=
  ⟨rfl, by rfl⟩

/-- C8 (amended): a body without `deal_terms` is answered 500
`Failed to generate contract`, and so is a body whose `deliverables` field is
absent provided the earlier checks pass (the `.length` access throws); but a
non-array `deliverables` such as a number is answered with the 400 message
"At least one deliverable is required" instead. -/
theorem c8_shape_errors_amended :
    (∀ (idMs : ℕ) (idRand : String) (env : RandEnv) (g : String),
        POST none idMs idRand env g = .serverError "Failed to generate contract")
      ∧ (∀ (dt : RawDealTerms) (idMs : ℕ) (idRand : String) (env : RandEnv) (g : String)
          (sd ed : CivilDate),
        dt.deliverables = .absent →
        ¬(dt.brand_name = "" ∨ dt.influencer_name = "" ∨ dt.platform = "") →
        parseIsoDate dt.start_date = some sd → parseIsoDate dt.end_date = some ed →
        ¬(ed.code < sd.code) →
        POST (some dt) idMs idRand env g = .serverError "Failed to generate contract")
      ∧ (∀ (dt : RawDealTerms) (q : ℚ) (idMs : ℕ) (idRand : String) (env : RandEnv) (g : String)
          (sd ed : CivilDate),
        dt.deliverables = .numVal q →
        ¬(dt.brand_name = "" ∨ dt.influencer_name = "" ∨ dt.platform = "") →
        parseIsoDate dt.start_date = some sd → parseIsoDate dt.end_date = some ed →
        ¬(ed.code < sd.code) →
        POST (some dt) idMs idRand env g = .clientError "At least one deliverable is required") := by
  refine ⟨fun idMs idRand env g => rfl, ?_, ?_⟩
  · intro dt idMs idRand env g sd ed hdel hb hps hpe horder
    unfold POST
    dsimp only
    rw [if_neg hb]
    simp only [hps, hpe]
    rw [if_neg horder]
    simp only [hdel]
  · intro dt q idMs idRand env g sd ed hdel hb hps hpe horder
    unfold POST
    dsimp only
    rw [if_neg hb]
    simp only [hps, hpe]
    rw [if_neg horder]
    simp only [hdel]

/-- Witness for the amended C8 at concrete inputs. -/
theorem c8_shape_errors_amended_witness :
    POST (some exRawAbsent) 3 "w8" exEnv "g8" = .serverError "Failed to generate contract"
      ∧ POST (some exRawNum) 4 "w8b" exEnv "g8b"
          = .clientError "At least one deliverable is required" :=
  ⟨c8_shape_errors_amended.2.1 exRawAbsent 3 "w8" exEnv "g8" ⟨2024, 8, 1⟩ ⟨2024, 8, 31⟩
      rfl (by decide) (by decide) (by decide) (by decide),
    c8_shape_errors_amended.2.2 exRawNum 0 4 "w8b" exEnv "g8b" ⟨2024, 8, 1⟩ ⟨2024, 8, 31⟩
      rfl (by decide) (by decide) (by decide) (by decide)⟩

/-- C9: the DELIVERABLES section lists the deliverables in input order: entry
`i` of the rendered list (0-based) is exactly the rendering of input
deliverable `i` numbered `i + 1` (with its type, quantity, description and
formatted due date), the rendered list has one entry per input deliverable,
and the joined list is embedded in the composed contract text. -/
theorem c9_deliverables_in_order (d : DealTerms) (env : RandEnv) (i : ℕ)
    (h : i < d.deliverables.length) :
    (renderDeliverables 0 d.deliverables).get? i
        = some (renderDeliverable i (d.deliverables.get ⟨i, h⟩))
      ∧ (renderDeliverables 0 d.deliverables).length = d.deliverables.length
      ∧ ∃ pre post, generateContractText d env
          = pre ++ (joinStrings "\n" (renderDeliverables 0 d.deliverables) ++ post) := by
  refine ⟨?_, renderDeliverables_length 0 _,
    ⟨preamble d, compensationSection d.total_fee ++ (tailSections d ++ contractFooter env), rfl⟩⟩
  have hrec := renderDeliverables_get? d.deliverables 0 i h
  simpa using hrec

/-- Witness for C9 at a concrete input. -/
theorem c9_deliverables_in_order_witness :
    0 < exTerms.deliverables.length
      ∧ ((renderDeliverables 0 exTerms.deliverables).get? 0
            = some (renderDeliverable 0 (exTerms.deliverables.get ⟨0, by decide⟩))
          ∧ (renderDeliverables 0 exTerms.deliverables).length = exTerms.deliverables.length
          ∧ ∃ pre post, generateContractText exTerms exEnv
              = pre ++ (joinStrings "\n" (renderDeliverables 0 exTerms.deliverables) ++ post)) :=
  ⟨by decide, c9_deliverables_in_order exTerms exEnv 0 (by decide)⟩

/-- C10: the handler's presence check treats any non-empty string as present,
without trimming: the required-field rule fires exactly when one of
`brand_name`, `influencer_name`, `platform` is the empty string; a request in
which any of those three fields is a non-empty whitespace-only string (and
which passes the six checks) is not rejected and produces a contract; and the
upstream UI form's trimmed presence check flags every whitespace-only value
as missing. -/
theorem c10_whitespace_not_trimmed :
    (∀ d : DealTerms, ruleViolation0 d = false ↔
        (d.brand_name ≠ "" ∧ d.influencer_name ≠ "" ∧ d.platform ≠ ""))
      ∧ (∀ (d : DealTerms) (idMs : ℕ) (idRand : String) (env : RandEnv) (g : String),
        ((d.brand_name ≠ "" ∧ d.brand_name.data.all Char.isWhitespace = true)
          ∨ (d.influencer_name ≠ "" ∧ d.influencer_name.data.all Char.isWhitespace = true)
          ∨ (d.platform ≠ "" ∧ d.platform.data.all Char.isWhitespace = true)) →
        (∀ j : Fin 6, violates d j = false) →
        POST (some d.toRaw) idMs idRand env g
          = .success (generateContractText d env) (generateContractId idMs idRand) "draft" g)
      ∧ (∀ s : String, s.data.all Char.isWhitespace = true → uiFieldPresent s = false) := by
  refine ⟨?_, ?_, ?_⟩
  · intro d
    simp [ruleViolation0, not_or]
  · intro d idMs idRand env g _ hvalid
    exact post_success_of_valid d idMs idRand env g hvalid
  · intro s hws
    have h1 : s.data.dropWhile Char.isWhitespace = [] := by
      rw [List.dropWhile_eq_nil_iff]
      intro x hx
      simpa using List.all_eq_true.mp hws x hx
    simp [uiFieldPresent, jsTrim, h1]

/-- Witness for C10: requests with a whitespace-only `brand_name` (a space)
and a whitespace-only `platform` (space, tab, space) both produce contracts,
while the UI form's trimmed check flags those same values. -/
theorem c10_whitespace_not_trimmed_witness :
    (exTermsWs.brand_name ≠ "" ∧ exTermsWs.brand_name.data.all Char.isWhitespace = true)
      ∧ POST (some exTermsWs.toRaw) 31 "r10" exEnv "t10"
          = .success (generateContractText exTermsWs exEnv)
              (generateContractId 31 "r10") "draft" "t10"
      ∧ (exTermsWsPlat.platform ≠ "" ∧ exTermsWsPlat.platform.data.all Char.isWhitespace = true)
      ∧ POST (some exTermsWsPlat.toRaw) 32 "r10b" exEnv "t10b"
          = .success (generateContractText exTermsWsPlat exEnv)
              (generateContractId 32 "r10b") "draft" "t10b"
      ∧ " ".data.all Char.isWhitespace = true
      ∧ uiFieldPresent " " = false
      ∧ uiFieldPresent " \t " = false :=
  ⟨by decide,
    c10_whitespace_not_trimmed.2.1 exTermsWs 31 "r10" exEnv "t10"
      (Or.inl (by decide)) (by decide),
    by decide,
    c10_whitespace_not_trimmed.2.1 exTermsWsPlat 32 "r10b" exEnv "t10b"
      (Or.inr (Or.inr (by decide))) (by decide),
    by decide,
    c10_whitespace_not_trimmed.2.2 " " (by decide),
    c10_whitespace_not_trimmed.2.2 " \t " (by decide)⟩

end InfluencerFlow
